import Mathlib

/-!
# Barber Shop booking API — shallow embedding

Embedding of `src/main.py` (route handlers `create_appointment`,
`list_appointments`, `list_services`, `list_barbers`, the startup seeder
`seed_defaults`, and the helper `serialize_doc`) together with the document
store adapter.  The adapter module `database.py` is not part of the sources;
its operations (`insert`, `find`, `find_one`, `count`) are modelled from the
spec's adapter contract (§2) on an explicit store state.

Ids: the store's native id type (bson `ObjectId`) is modelled as one
constructor of `DocId`; a string is a syntactically valid native id when it
is 24 hexadecimal characters, and parsing a valid hex string yields the same
native id regardless of hex-digit case (so the parsed form is kept
lowercased, as `str(ObjectId(s))` returns lowercase hex).
-/

/-- A stored primary key: either the store's native object id (kept as its
canonical lowercase-hex string form) or a plain string key. -/
inductive DocId where
  | oid (s : String)
  | str (s : String)
deriving DecidableEq, Repr

/-- Hexadecimal characters, both cases (what bson accepts when parsing). -/
def isHexChar (c : Char) : Bool :=
  c.isDigit || ('a' ≤ c && c ≤ 'f') || ('A' ≤ c && c ≤ 'F')

/-- `ObjectId.is_valid(s)` for strings: 24 hex characters. -/
def oid_is_valid (s : String) : Bool :=
  s.data.length == 24 && s.data.all isHexChar

/-- Lowercasing a hex string, character by character (hex parsing is
case-insensitive, and the canonical string form of an object id is
lowercase). -/
def lowerHex (s : String) : String :=
  String.mk (s.data.map Char.toLower)

/-- `ObjectId(s)` on a syntactically valid string: the native id whose
canonical string form is the lowercased input. -/
def objectIdOf (s : String) : DocId := DocId.oid (lowerHex s)

/-- The two-path id interpretation used by every store query on an id
(`ObjectId(x) if ObjectId.is_valid(x) else x`). -/
def parseId (s : String) : DocId :=
  if oid_is_valid s then objectIdOf s else DocId.str s

/-- `str(_id)`: the string form of a stored id. -/
def idToString : DocId → String
  | .oid s => s
  | .str s => s

/-! ## Documents and store state -/

/-- A persisted Service document (`schemas.Service` plus the store `_id`). -/
structure ServiceDoc where
  _id : DocId
  name : String
  duration_minutes : Nat
  price : ℚ
  description : Option String
deriving DecidableEq, Repr

/-- A persisted Barber document (`schemas.Barber` plus the store `_id`). -/
structure BarberDoc where
  _id : DocId
  name : String
  specialties : List String
  bio : Option String
deriving DecidableEq, Repr

/-- A persisted Appointment document (`schemas.Appointment` plus `_id`;
its reference fields are stored as the strings originally supplied). -/
structure AppointmentDoc where
  _id : DocId
  customer_name : String
  customer_phone : String
  customer_email : Option String
  service_id : String
  barber_id : String
  date : String
  time : String
deriving DecidableEq, Repr

/-- The document store state: the three collections used by the app, plus a
counter from which the store mints fresh native ids. -/
structure DB where
  service : List ServiceDoc
  barber : List BarberDoc
  appointment : List AppointmentDoc
  counter : Nat
deriving DecidableEq, Repr

/-! ## Store-assigned ids

`database.py` is not under `src/`; the spec (§2) only fixes
`insert(collection, document) -> id` with a store-assigned opaque native id.
The mint below realises that: a fresh 24-character id made of decimal digits
(hence a syntactically valid, already-lowercase native-id string). -/

/-- One decimal digit character of the minted id. -/
def digitChar10 (n : Nat) : Char := Char.ofNat (48 + n % 10)

/-- Modelled from the spec: the store's fresh native-id mint (§2, store-assigned
opaque ids). The `n`-th minted id, as its 24-character string form. -/
def genId (n : Nat) : String :=
  String.mk ((List.range 24).map (fun i => digitChar10 (n / 10 ^ i)))

/-! ## Schemas (`schemas.py`) -/

/-- `schemas.Service`: the inbound/seed shape of a service. -/
structure Service where
  name : String
  duration_minutes : Nat
  price : ℚ
  description : Option String
deriving DecidableEq, Repr

/-- `schemas.Barber`: the inbound/seed shape of a barber. -/
structure Barber where
  name : String
  specialties : List String
  bio : Option String
deriving DecidableEq, Repr

/-- `schemas.Appointment`: the inbound shape of an appointment. -/
structure Appointment where
  customer_name : String
  customer_phone : String
  customer_email : Option String
  service_id : String
  barber_id : String
  date : String
  time : String
deriving DecidableEq, Repr

/-- `AppointmentCreate(AppointmentSchema): pass` — the POST payload. -/
abbrev AppointmentCreate := Appointment

/-! ## Response models and serialization -/

/-- `ServiceOut` response model. -/
structure ServiceOut where
  id : String
  name : String
  duration_minutes : Nat
  price : ℚ
  description : Option String
deriving DecidableEq, Repr

/-- `BarberOut` response model. -/
structure BarberOut where
  id : String
  name : String
  specialties : List String
  bio : Option String
deriving DecidableEq, Repr

/-- `AppointmentOut` response model. -/
structure AppointmentOut where
  id : String
  customer_name : String
  customer_phone : String
  customer_email : Option String
  service_id : String
  barber_id : String
  date : String
  time : String
deriving DecidableEq, Repr

/-- `serialize_doc` on a service document: `_id` becomes the string field
`id`; the remaining fields are plain values and pass through. -/
def serialize_doc_service (d : ServiceDoc) : ServiceOut :=
  { id := idToString d._id, name := d.name,
    duration_minutes := d.duration_minutes, price := d.price,
    description := d.description }

/-- `serialize_doc` on a barber document. -/
def serialize_doc_barber (d : BarberDoc) : BarberOut :=
  { id := idToString d._id, name := d.name,
    specialties := d.specialties, bio := d.bio }

/-- `serialize_doc` on an appointment document (all non-`_id` fields are
strings, so only `_id` is rewritten). -/
def serialize_doc_appointment (d : AppointmentDoc) : AppointmentOut :=
  { id := idToString d._id, customer_name := d.customer_name,
    customer_phone := d.customer_phone, customer_email := d.customer_email,
    service_id := d.service_id, barber_id := d.barber_id,
    date := d.date, time := d.time }

/-! ## Store adapter operations (modelled from the spec, §2) -/

/-- Modelled from the spec: adapter `count` on the Service collection with an
`_id` filter (`database.py` is not under `src/`). -/
def countServiceById (db : DB) (i : DocId) : Nat :=
  (db.service.filter (fun d => d._id == i)).length

/-- Modelled from the spec: adapter `count` on the Barber collection with an
`_id` filter. -/
def countBarberById (db : DB) (i : DocId) : Nat :=
  (db.barber.filter (fun d => d._id == i)).length

/-- Modelled from the spec: adapter `count` on the Appointment collection with
the slot filter `{barber_id, date, time}` (string equality on all three, as
`barber_id` is stored as the string originally supplied). -/
def countAppointmentsAt (db : DB) (b d t : String) : Nat :=
  (db.appointment.filter
    (fun a => a.barber_id == b && a.date == d && a.time == t)).length

/-- Modelled from the spec: adapter `find_one` on the Appointment collection
by `_id`. -/
def findAppointmentById (db : DB) (i : DocId) : Option AppointmentDoc :=
  db.appointment.find? (fun a => a._id == i)

/-- Modelled from the spec: `create_document("service", s)` — insert with a
fresh store-assigned native id, returning the id's string form (§2). -/
def create_document_service (db : DB) (s : Service) : String × DB :=
  let i := genId db.counter
  (i, { db with
          service := db.service ++
            [{ _id := DocId.oid i, name := s.name,
               duration_minutes := s.duration_minutes, price := s.price,
               description := s.description }],
          counter := db.counter + 1 })

/-- Modelled from the spec: `create_document("barber", b)`. -/
def create_document_barber (db : DB) (b : Barber) : String × DB :=
  let i := genId db.counter
  (i, { db with
          barber := db.barber ++
            [{ _id := DocId.oid i, name := b.name,
               specialties := b.specialties, bio := b.bio }],
          counter := db.counter + 1 })

/-- Modelled from the spec: `create_document("appointment", payload)` — the
candidate's fields are persisted as supplied, under a fresh native id. -/
def create_document_appointment (db : DB) (p : AppointmentCreate) : String × DB :=
  let i := genId db.counter
  (i, { db with
          appointment := db.appointment ++
            [{ _id := DocId.oid i, customer_name := p.customer_name,
               customer_phone := p.customer_phone,
               customer_email := p.customer_email,
               service_id := p.service_id, barber_id := p.barber_id,
               date := p.date, time := p.time }],
          counter := db.counter + 1 })

/-! ## Route handlers (`main.py`) -/

/-- Line 171: `db.service.count_documents({"_id": ObjectId(x)}) if
ObjectId.is_valid(x) else db.service.count_documents({"_id": x})`. -/
def serviceExistsCount (db : DB) (raw : String) : Nat :=
  if oid_is_valid raw then countServiceById db (objectIdOf raw)
  else countServiceById db (DocId.str raw)

/-- Line 172: the same two-path existence count against the Barber
collection. -/
def barberExistsCount (db : DB) (raw : String) : Nat :=
  if oid_is_valid raw then countBarberById db (objectIdOf raw)
  else countBarberById db (DocId.str raw)

/-- Line 184: the two-path `find_one` re-read of an appointment by the raw
string form of its id. -/
def findAppointmentByRaw (db : DB) (raw : String) : Option AppointmentDoc :=
  if oid_is_valid raw then findAppointmentById db (objectIdOf raw)
  else findAppointmentById db (DocId.str raw)

/-- Outcome of `POST /api/appointments`: a created record, an HTTPException
(status, detail), or an unhandled fault (the re-read found nothing and
serialization of `None` blows up — unreachable in practice). -/
inductive CreateResult where
  | ok (out : AppointmentOut)
  | err (status : Nat) (detail : String)
  | fault
deriving DecidableEq, Repr

/-- `create_appointment` (main.py lines 165-185): validate the two
references with the two-path lookup, reject on a slot conflict, otherwise
insert and return the re-read record.  Returns the response together with
the store state after the call (`none` models an unavailable store). -/
def create_appointment (db? : Option DB) (p : AppointmentCreate) :
    CreateResult × Option DB :=
  match db? with
  | none => (.err 500 "Database not available", none)
  | some db =>
    let service_exists := serviceExistsCount db p.service_id
    let barber_exists := barberExistsCount db p.barber_id
    if service_exists = 0 then (.err 400 "Invalid service_id", some db)
    else if barber_exists = 0 then (.err 400 "Invalid barber_id", some db)
    else
      let conflict := countAppointmentsAt db p.barber_id p.date p.time
      if conflict > 0 then
        (.err 409 "Time slot already booked for this barber", some db)
      else
        let r := create_document_appointment db p
        match findAppointmentByRaw r.2 r.1 with
        | some doc => (.ok (serialize_doc_appointment doc), some r.2)
        | none => (.fault, some r.2)

/-- The store queries `create_appointment` issues, in program order: lines
171 and 172 run both existence counts before either is checked, so both
counts appear even when the request is rejected for an invalid
`service_id`. -/
inductive StoreQuery where
  | countService (i : DocId)
  | countBarber (i : DocId)
  | countAppointmentSlot (b d t : String)
  | insertAppointment
  | findAppointment (i : DocId)
deriving DecidableEq, Repr

/-- The query trace of one `create_appointment` call (same control flow as
`create_appointment`, recording each store round-trip). -/
def create_appointment_queries (db? : Option DB) (p : AppointmentCreate) :
    List StoreQuery :=
  match db? with
  | none => []
  | some db =>
    let sQ := StoreQuery.countService (parseId p.service_id)
    let bQ := StoreQuery.countBarber (parseId p.barber_id)
    if serviceExistsCount db p.service_id = 0 then [sQ, bQ]
    else if barberExistsCount db p.barber_id = 0 then [sQ, bQ]
    else
      let cQ := StoreQuery.countAppointmentSlot p.barber_id p.date p.time
      if countAppointmentsAt db p.barber_id p.date p.time > 0 then [sQ, bQ, cQ]
      else [sQ, bQ, cQ, StoreQuery.insertAppointment,
            StoreQuery.findAppointment (parseId (genId db.counter))]

/-- `GET /api/services` (lines 142-145). -/
def list_services (db? : Option DB) : List ServiceOut :=
  match db? with
  | none => []
  | some db => db.service.map serialize_doc_service

/-- `GET /api/barbers` (lines 147-150). -/
def list_barbers (db? : Option DB) : List BarberOut :=
  match db? with
  | none => []
  | some db => db.barber.map serialize_doc_barber

/-- The filter `GET /api/appointments` builds: a field key is added to the
query only when the parameter is truthy (present and non-empty), mirroring
`if date: query["date"] = date` and likewise for `barber_id`. -/
def appointmentQueryPred (date barber_id : Option String)
    (a : AppointmentDoc) : Bool :=
  (match date with
   | none => true
   | some d => if d == "" then true else a.date == d) &&
  (match barber_id with
   | none => true
   | some b => if b == "" then true else a.barber_id == b)

/-- `GET /api/appointments?date=&barber_id=` (lines 152-163). -/
def list_appointments (db? : Option DB) (date barber_id : Option String) :
    List AppointmentOut :=
  match db? with
  | none => []
  | some db =>
    ((db.appointment.filter (appointmentQueryPred date barber_id)).map
      serialize_doc_appointment)

/-! ## Startup seeder (`seed_defaults`, lines 84-106) -/

/-- The four canned services. -/
def default_services : List Service :=
  [{ name := "Haircut", duration_minutes := 30, price := 25,
     description := some "Classic cut and style" },
   { name := "Beard Trim", duration_minutes := 20, price := 15,
     description := some "Shape and trim" },
   { name := "Haircut + Beard", duration_minutes := 50, price := 35,
     description := some "Complete grooming" },
   { name := "Buzz Cut", duration_minutes := 20, price := 18,
     description := some "Clean buzz all around" }]

/-- The three canned barbers. -/
def default_barbers : List Barber :=
  [{ name := "Alex", specialties := ["Fade", "Beard"],
     bio := some "Detail-oriented with 7 years experience." },
   { name := "Jamie", specialties := ["Classic", "Scissor Cut"],
     bio := some "Loves classic looks and great chats." },
   { name := "Riley", specialties := ["Buzz", "Kids"],
     bio := some "Fast and friendly." }]

/-- `seed_defaults`: if the Service collection is empty insert the four
canned services; if the Barber collection is empty insert the three canned
barbers; a missing store handle makes it a no-op. -/
def seed_defaults (db? : Option DB) : Option DB :=
  match db? with
  | none => none
  | some db =>
    let db1 :=
      if db.service.length = 0 then
        default_services.foldl (fun d s => (create_document_service d s).2) db
      else db
    let db2 :=
      if db1.barber.length = 0 then
        default_barbers.foldl (fun d b => (create_document_barber d b).2) db1
      else db1
    some db2

/-! ## The slot invariant -/

/-- I3: no two persisted appointments share the same
(barber_id, date, time) triple. -/
def SlotOk (db : DB) : Prop :=
  db.appointment.Pairwise
    (fun a b => ¬(a.barber_id = b.barber_id ∧ a.date = b.date ∧ a.time = b.time))

instance (db : DB) : Decidable (SlotOk db) := by
  unfold SlotOk; infer_instance

/-! ## Lemmas about minted ids -/

/-- Every character of a minted id is a hex character. -/
theorem isHexChar_digitChar10 (m : Nat) : isHexChar (digitChar10 m) = true := by
  have hb : ∀ k < 10, isHexChar (Char.ofNat (48 + k)) = true := by decide
  have h : m % 10 < 10 := Nat.mod_lt _ (by norm_num)
  exact hb (m % 10) h

/-- Every character of a minted id is already lowercase. -/
theorem toLower_digitChar10 (m : Nat) :
    Char.toLower (digitChar10 m) = digitChar10 m := by
  have hb : ∀ k < 10, Char.toLower (Char.ofNat (48 + k)) = Char.ofNat (48 + k) := by
    decide
  have h : m % 10 < 10 := Nat.mod_lt _ (by norm_num)
  exact hb (m % 10) h

/-- A minted id is a syntactically valid native-id string. -/
theorem oid_is_valid_genId (n : Nat) : oid_is_valid (genId n) = true := by
  unfold oid_is_valid genId
  simp [List.all_eq_true, isHexChar_digitChar10]

/-- Lowercasing a minted id leaves it unchanged. -/
theorem lowerHex_genId (n : Nat) : lowerHex (genId n) = genId n := by
  unfold lowerHex genId
  congr 1
  rw [List.map_map]
  exact List.map_congr_left (fun a _ => toLower_digitChar10 _)

/-- The two-path interpretation of a minted id takes the native-id path and
returns the id the store assigned. -/
theorem parseId_genId (n : Nat) : parseId (genId n) = DocId.oid (genId n) := by
  unfold parseId objectIdOf
  rw [oid_is_valid_genId, lowerHex_genId]
  simp

/-- `find?` over a list extended on the right by one element, when nothing in
the prefix matches. -/
theorem find?_append_singleton {α : Type} (l : List α) (p : α → Bool) (d : α)
    (h : ∀ x ∈ l, p x = false) :
    (l ++ [d]).find? p = if p d then some d else none := by
  induction l with
  | nil => cases hp : p d <;> simp [List.find?, hp]
  | cons a t ih =>
    have ha := h a (List.mem_cons_self a t)
    simp only [List.cons_append, List.find?, ha]
    exact ih (fun x hx => h x (List.mem_cons_of_mem a hx))

/-- If the candidate's service id matches no stored service under either
interpretation, the code's two-path existence count is zero. -/
theorem serviceExistsCount_eq_zero (db : DB) (s : String)
    (h : ∀ d ∈ db.service, d._id ≠ objectIdOf s ∧ d._id ≠ DocId.str s) :
    serviceExistsCount db s = 0 := by
  unfold serviceExistsCount countServiceById
  split
  · rw [List.length_eq_zero, List.filter_eq_nil_iff]
    intro d hd
    simpa using (h d hd).1
  · rw [List.length_eq_zero, List.filter_eq_nil_iff]
    intro d hd
    simpa using (h d hd).2

/-- A zero slot count means no stored appointment occupies the slot. -/
theorem no_slot_match_of_count_zero (db : DB) (b d t : String)
    (h : countAppointmentsAt db b d t = 0) :
    ∀ a ∈ db.appointment, ¬(a.barber_id = b ∧ a.date = d ∧ a.time = t) := by
  unfold countAppointmentsAt at h
  rw [List.length_eq_zero, List.filter_eq_nil_iff] at h
  intro a ha hc
  exact h a ha (by simp [hc.1, hc.2.1, hc.2.2])

/-! ## Example fixtures -/

/-- A store with one service and one barber, both under plain string ids,
and no appointments. -/
def exDb1 : DB :=
  { service := [{ _id := .str "s1", name := "Haircut", duration_minutes := 30,
                  price := 25, description := none }],
    barber := [{ _id := .str "b1", name := "Alex", specialties := ["Fade"],
                 bio := none }],
    appointment := [], counter := 0 }

/-- A candidate appointment whose service id matches nothing in `exDb1`. -/
def exPay1 : AppointmentCreate :=
  { customer_name := "Casey", customer_phone := "555-0100",
    customer_email := none, service_id := "no-such-service",
    barber_id := "b1", date := "2024-06-01", time := "14:00" }

/-! ## Claims -/

/-- C1: a candidate whose `service_id` matches no Service under either
interpretation of the id is rejected with 400 "Invalid service_id", and the
store — in particular the appointment collection — is unchanged. -/
theorem create_appointment_unknown_service (db : DB) (p : AppointmentCreate)
    (h : ∀ d ∈ db.service, d._id ≠ objectIdOf p.service_id ∧
         d._id ≠ DocId.str p.service_id) :
    create_appointment (some db) p =
      (CreateResult.err 400 "Invalid service_id", some db) := by
  have hz := serviceExistsCount_eq_zero db p.service_id h
  simp [create_appointment, hz]

/-- C1 witness: the rejection at a concrete store and candidate. -/
theorem create_appointment_unknown_service_witness :
    (∀ d ∈ exDb1.service, d._id ≠ objectIdOf "no-such-service" ∧
       d._id ≠ DocId.str "no-such-service") ∧
    create_appointment (some exDb1) exPay1 =
      (CreateResult.err 400 "Invalid service_id", some exDb1) :=
  ⟨by decide, create_appointment_unknown_service exDb1 exPay1 (by decide)⟩

/-- C9: with no store handle, the three list endpoints answer an empty array
rather than an error, while the create endpoint fails with
500 "Database not available". -/
theorem endpoints_when_store_unavailable (dateF barberF : Option String)
    (p : AppointmentCreate) :
    list_services none = [] ∧ list_barbers none = [] ∧
    list_appointments none dateF barberF = [] ∧
    create_appointment none p =
      (CreateResult.err 500 "Database not available", none) :=
  ⟨rfl, rfl, rfl, rfl⟩

/-- C10: an empty-string query parameter on `GET /api/appointments` applies
no filter for that field, so the call answers exactly as the unfiltered
call. -/
theorem empty_string_param_is_no_filter (db? : Option DB) (o : Option String) :
    list_appointments db? (some "") o = list_appointments db? none o ∧
    list_appointments db? o (some "") = list_appointments db? o none := by
  cases db? with
  | none => exact ⟨rfl, rfl⟩
  | some db =>
    have h1 : appointmentQueryPred (some "") o = appointmentQueryPred none o := by
      funext a; simp [appointmentQueryPred]
    have h2 : appointmentQueryPred o (some "") = appointmentQueryPred o none := by
      funext a; simp [appointmentQueryPred]
    exact ⟨by simp [list_appointments, h1], by simp [list_appointments, h2]⟩

/-- `exDb1` with one appointment already booked for barber "b1" at
2024-06-01 14:00. -/
def exDb2 : DB :=
  { service := exDb1.service, barber := exDb1.barber,
    appointment := [{ _id := .oid "999999999999999999999999",
                      customer_name := "Pat", customer_phone := "555-0101",
                      customer_email := none, service_id := "s1",
                      barber_id := "b1", date := "2024-06-01",
                      time := "14:00" }],
    counter := 0 }

/-- A candidate for the slot already occupied in `exDb2`. -/
def exPay2 : AppointmentCreate :=
  { customer_name := "Sam", customer_phone := "555-0102",
    customer_email := none, service_id := "s1", barber_id := "b1",
    date := "2024-06-01", time := "14:00" }

/-- C2: once both references resolve, the request is rejected with
409 "Time slot already booked for this barber" exactly when some persisted
appointment already has the candidate's literal barber_id string, date and
time; and on that rejection the store is unchanged. -/
theorem create_appointment_slot_conflict_iff (db : DB) (p : AppointmentCreate)
    (hs : serviceExistsCount db p.service_id ≠ 0)
    (hb : barberExistsCount db p.barber_id ≠ 0) :
    ((create_appointment (some db) p).1 =
        CreateResult.err 409 "Time slot already booked for this barber" ↔
      0 < countAppointmentsAt db p.barber_id p.date p.time) ∧
    (0 < countAppointmentsAt db p.barber_id p.date p.time →
      (create_appointment (some db) p).2 = some db) := by
  by_cases hc : 0 < countAppointmentsAt db p.barber_id p.date p.time
  · constructor
    · simp [create_appointment, hs, hb, hc]
    · intro _; simp [create_appointment, hs, hb, hc]
  · have hmain : create_appointment (some db) p =
        (match findAppointmentByRaw (create_document_appointment db p).2
               (create_document_appointment db p).1 with
         | some doc => (CreateResult.ok (serialize_doc_appointment doc),
                        some (create_document_appointment db p).2)
         | none => (CreateResult.fault,
                    some (create_document_appointment db p).2)) := by
      simp [create_appointment, hs, hb, hc]
    constructor
    · rw [hmain]
      cases hf : findAppointmentByRaw (create_document_appointment db p).2
          (create_document_appointment db p).1 <;> simp [hf, hc]
    · intro h; exact absurd h hc

/-- C2 witness: the 409 rejection at a concrete occupied slot. -/
theorem create_appointment_slot_conflict_iff_witness :
    serviceExistsCount exDb2 "s1" ≠ 0 ∧
    (create_appointment (some exDb2) exPay2).1 =
      CreateResult.err 409 "Time slot already booked for this barber" :=
  ⟨by decide,
   ((create_appointment_slot_conflict_iff exDb2 exPay2 (by decide)
       (by decide)).1).2 (by decide)⟩

/-- C4: the existence checks refine the single two-path `parseId`
interpretation (native id when syntactically valid, literal string
otherwise), and a native-id-shaped `service_id` matching no service — in
particular "000000000000000000000000" — is rejected with
400 "Invalid service_id". -/
theorem two_path_id_lookup (db : DB) (p : AppointmentCreate) :
    serviceExistsCount db p.service_id =
      countServiceById db (parseId p.service_id) ∧
    barberExistsCount db p.barber_id =
      countBarberById db (parseId p.barber_id) ∧
    (p.service_id = "000000000000000000000000" →
      (∀ d ∈ db.service, d._id ≠ DocId.oid "000000000000000000000000") →
      (create_appointment (some db) p).1 =
        CreateResult.err 400 "Invalid service_id") := by
  refine ⟨?_, ?_, ?_⟩
  · by_cases hcond : oid_is_valid p.service_id <;>
      simp [serviceExistsCount, parseId, hcond]
  · by_cases hcond : oid_is_valid p.barber_id <;>
      simp [barberExistsCount, parseId, hcond]
  · intro hsid hnone
    have hz : serviceExistsCount db p.service_id = 0 := by
      rw [hsid]
      unfold serviceExistsCount
      rw [if_pos (by decide)]
      have hobj : objectIdOf "000000000000000000000000" =
          DocId.oid "000000000000000000000000" := by decide
      rw [hobj]
      unfold countServiceById
      rw [List.length_eq_zero, List.filter_eq_nil_iff]
      intro d hd
      simpa using hnone d hd
    simp [create_appointment, hz]

/-- The Scenario-B candidate: a syntactically valid native-id-shaped
`service_id` that exists nowhere, with a valid `barber_id`. -/
def exPay4 : AppointmentCreate :=
  { customer_name := "Robin", customer_phone := "555-0104",
    customer_email := none, service_id := "000000000000000000000000",
    barber_id := "b1", date := "2024-06-01", time := "14:00" }

/-- C4 witness: Scenario B at a concrete store. -/
theorem two_path_id_lookup_witness :
    (∀ d ∈ exDb1.service, d._id ≠ DocId.oid "000000000000000000000000") ∧
    (create_appointment (some exDb1) exPay4).1 =
      CreateResult.err 400 "Invalid service_id" :=
  ⟨by decide, (two_path_id_lookup exDb1 exPay4).2.2 rfl (by decide)⟩

/-- C5 (amended): the service check is decided before the barber check, so a
zero service count always yields the 400 "Invalid service_id" rejection
(whatever the barber count), and the 409 slot rejection is reachable only
when both existence counts are non-zero. -/
theorem create_appointment_check_order (db : DB) (p : AppointmentCreate) :
    (serviceExistsCount db p.service_id = 0 →
      (create_appointment (some db) p).1 =
        CreateResult.err 400 "Invalid service_id") ∧
    ((create_appointment (some db) p).1 =
        CreateResult.err 409 "Time slot already booked for this barber" →
      serviceExistsCount db p.service_id ≠ 0 ∧
      barberExistsCount db p.barber_id ≠ 0) := by
  constructor
  · intro h; simp [create_appointment, h]
  · intro h
    by_cases h1 : serviceExistsCount db p.service_id = 0
    · simp [create_appointment, h1] at h
    · by_cases h2 : barberExistsCount db p.barber_id = 0
      · simp [create_appointment, h1, h2] at h
      · exact ⟨h1, h2⟩

/-- An empty store (no services, no barbers, no appointments). -/
def exDb5 : DB := { service := [], barber := [], appointment := [], counter := 0 }

/-- A candidate whose service and barber references are both invalid. -/
def exPay5 : AppointmentCreate :=
  { customer_name := "Drew", customer_phone := "555-0105",
    customer_email := none, service_id := "no-such-service",
    barber_id := "no-such-barber", date := "2024-06-01", time := "14:00" }

/-- C5 counterexample: with both references invalid only the service
rejection is reported, but the barber existence count is still executed
(lines 171-172 run both counts before either is checked), so the claim's
"the barber lookup is not performed" is false on the code. -/
theorem create_appointment_barber_lookup_still_runs :
    (create_appointment (some exDb5) exPay5).1 =
      CreateResult.err 400 "Invalid service_id" ∧
    StoreQuery.countBarber (DocId.str "no-such-barber") ∈
      create_appointment_queries (some exDb5) exPay5 := by decide

/-- C5 witness: the amended ordering statement at a concrete store. -/
theorem create_appointment_check_order_witness :
    serviceExistsCount exDb5 "no-such-service" = 0 ∧
    (create_appointment (some exDb5) exPay5).1 =
      CreateResult.err 400 "Invalid service_id" :=
  ⟨by decide, (create_appointment_check_order exDb5 exPay5).1 (by decide)⟩

/-- C3: one sequential `create_appointment` call preserves invariant I3 (no
two persisted appointments share a (barber_id, date, time) triple). -/
theorem create_appointment_preserves_SlotOk (db : DB) (p : AppointmentCreate)
    (res : CreateResult) (db' : DB) (hok : SlotOk db)
    (h : create_appointment (some db) p = (res, some db')) : SlotOk db' := by
  by_cases h1 : serviceExistsCount db p.service_id = 0
  · simp [create_appointment, h1] at h
    exact h.2 ▸ hok
  by_cases h2 : barberExistsCount db p.barber_id = 0
  · simp [create_appointment, h1, h2] at h
    exact h.2 ▸ hok
  by_cases hc : 0 < countAppointmentsAt db p.barber_id p.date p.time
  · simp [create_appointment, h1, h2, hc] at h
    exact h.2 ▸ hok
  · have hc0 : countAppointmentsAt db p.barber_id p.date p.time = 0 :=
      Nat.eq_zero_of_not_pos hc
    have hno := no_slot_match_of_count_zero db p.barber_id p.date p.time hc0
    have key : SlotOk (create_document_appointment db p).2 := by
      have happ : (create_document_appointment db p).2.appointment =
          db.appointment ++
            [{ _id := DocId.oid (genId db.counter),
               customer_name := p.customer_name,
               customer_phone := p.customer_phone,
               customer_email := p.customer_email,
               service_id := p.service_id, barber_id := p.barber_id,
               date := p.date, time := p.time }] := by
        simp [create_document_appointment]
      unfold SlotOk
      rw [happ, List.pairwise_append]
      refine ⟨hok, List.pairwise_singleton _ _, ?_⟩
      intro a ha b hb
      simp only [List.mem_singleton] at hb
      subst hb
      intro hcon
      exact hno a ha ⟨hcon.1, hcon.2.1, hcon.2.2⟩
    simp [create_appointment, h1, h2, hc] at h
    cases hf : findAppointmentByRaw (create_document_appointment db p).2
        (create_document_appointment db p).1 with
    | none => rw [hf] at h; simp at h; exact h.2 ▸ key
    | some doc => rw [hf] at h; simp at h; exact h.2 ▸ key

/-- A Scenario-D candidate: same barber and date as the appointment already
stored in `exDb2`, but a distinct time slot. -/
def exPay3 : AppointmentCreate :=
  { customer_name := "Lee", customer_phone := "555-0103",
    customer_email := none, service_id := "s1", barber_id := "b1",
    date := "2024-06-01", time := "14:30" }

/-- The store after `exPay3` is accepted against `exDb2`. -/
def exDb3' : DB :=
  { service := exDb2.service, barber := exDb2.barber,
    appointment := exDb2.appointment ++
      [{ _id := .oid (genId 0), customer_name := "Lee",
         customer_phone := "555-0103", customer_email := none,
         service_id := "s1", barber_id := "b1",
         date := "2024-06-01", time := "14:30" }],
    counter := 1 }

/-- C3 witness: invariant preservation across a concrete accepted booking. -/
theorem create_appointment_preserves_SlotOk_witness :
    SlotOk exDb2 ∧ SlotOk exDb3' :=
  ⟨by decide,
   create_appointment_preserves_SlotOk exDb2 exPay3
     (CreateResult.ok
       { id := genId 0, customer_name := "Lee", customer_phone := "555-0103",
         customer_email := none, service_id := "s1", barber_id := "b1",
         date := "2024-06-01", time := "14:30" })
     exDb3' (by decide) (by decide)⟩

/-- The document the accept path persists for candidate `p`. -/
def insertedDoc (db : DB) (p : AppointmentCreate) : AppointmentDoc :=
  { _id := DocId.oid (genId db.counter), customer_name := p.customer_name,
    customer_phone := p.customer_phone, customer_email := p.customer_email,
    service_id := p.service_id, barber_id := p.barber_id,
    date := p.date, time := p.time }

/-- The two-path re-read by the newly assigned id finds exactly the inserted
document, provided the minted id is fresh. -/
theorem find_inserted (db : DB) (p : AppointmentCreate)
    (hfresh : ∀ a ∈ db.appointment, a._id ≠ DocId.oid (genId db.counter)) :
    findAppointmentByRaw (create_document_appointment db p).2
      (create_document_appointment db p).1 = some (insertedDoc db p) := by
  have h1 : (create_document_appointment db p).1 = genId db.counter := rfl
  have h2 : (create_document_appointment db p).2.appointment =
      db.appointment ++ [insertedDoc db p] := by
    simp [create_document_appointment, insertedDoc]
  unfold findAppointmentByRaw findAppointmentById
  rw [h1, h2]
  simp only [oid_is_valid_genId, if_true]
  have hobj : objectIdOf (genId db.counter) = DocId.oid (genId db.counter) := by
    unfold objectIdOf
    rw [lowerHex_genId]
  rw [hobj]
  rw [find?_append_singleton _ _ _
    (fun x hx => by simpa using hfresh x hx)]
  simp [insertedDoc]

/-- C6: a candidate passing all three checks is persisted under a fresh
store-assigned id, re-read by that id, and answered as the re-read record:
the id string together with the candidate's customer, service, barber, date
and time fields; the store gains exactly that document. -/
theorem create_appointment_accept_path (db : DB) (p : AppointmentCreate)
    (hs : serviceExistsCount db p.service_id ≠ 0)
    (hb : barberExistsCount db p.barber_id ≠ 0)
    (hc : countAppointmentsAt db p.barber_id p.date p.time = 0)
    (hfresh : ∀ a ∈ db.appointment, a._id ≠ DocId.oid (genId db.counter)) :
    create_appointment (some db) p =
      (CreateResult.ok
        { id := genId db.counter, customer_name := p.customer_name,
          customer_phone := p.customer_phone,
          customer_email := p.customer_email, service_id := p.service_id,
          barber_id := p.barber_id, date := p.date, time := p.time },
       some { service := db.service, barber := db.barber,
              appointment := db.appointment ++ [insertedDoc db p],
              counter := db.counter + 1 }) := by
  have hcnot : ¬ 0 < countAppointmentsAt db p.barber_id p.date p.time := by
    omega
  have hfind := find_inserted db p hfresh
  simp only [create_appointment]
  rw [if_neg hs, if_neg hb, if_neg hcnot, hfind]
  simp [serialize_doc_appointment, insertedDoc, idToString,
        create_document_appointment]

/-- A valid candidate against `exDb1` for a free slot. -/
def exPay6 : AppointmentCreate :=
  { customer_name := "Noor", customer_phone := "555-0106",
    customer_email := none, service_id := "s1", barber_id := "b1",
    date := "2024-06-02", time := "09:00" }

/-- C6 witness: the accept path at a concrete store and candidate. -/
theorem create_appointment_accept_path_witness :
    serviceExistsCount exDb1 "s1" ≠ 0 ∧
    create_appointment (some exDb1) exPay6 =
      (CreateResult.ok
        { id := genId 0, customer_name := "Noor",
          customer_phone := "555-0106", customer_email := none,
          service_id := "s1", barber_id := "b1",
          date := "2024-06-02", time := "09:00" },
       some { service := exDb1.service, barber := exDb1.barber,
              appointment := exDb1.appointment ++ [insertedDoc exDb1 exPay6],
              counter := 1 }) :=
  ⟨by decide,
   create_appointment_accept_path exDb1 exPay6 (by decide) (by decide)
     (by decide) (by decide)⟩

/-- C7: against an empty store the seeder inserts exactly the four canned
services and three canned barbers, and a second run is the identity (both
emptiness guards now fail), so the collection counts are unchanged by it. -/
theorem seed_defaults_idempotent (db : DB) (hs : db.service = [])
    (hb : db.barber = []) :
    (seed_defaults (some db)).map (fun d => d.service.length) = some 4 ∧
    (seed_defaults (some db)).map (fun d => d.barber.length) = some 3 ∧
    seed_defaults (seed_defaults (some db)) = seed_defaults (some db) := by
  obtain ⟨s, b, a, c⟩ := db
  dsimp only at hs hb
  subst hs hb
  refine ⟨?_, ?_, ?_⟩ <;>
    simp [seed_defaults, default_services, default_barbers,
          create_document_service, create_document_barber]

/-- C7 witness: the seeder at the concrete empty store. -/
theorem seed_defaults_idempotent_witness :
    (seed_defaults (some exDb5)).map (fun d => d.service.length) = some 4 ∧
    (seed_defaults (some exDb5)).map (fun d => d.barber.length) = some 3 ∧
    seed_defaults (seed_defaults (some exDb5)) = seed_defaults (some exDb5) :=
  seed_defaults_idempotent exDb5 rfl rfl

/-- C8: an appointment just created through the POST endpoint is returned by
an immediately following GET filtered by its barber_id. -/
theorem created_appointment_listed (db db' : DB) (p : AppointmentCreate)
    (out : AppointmentOut)
    (h : create_appointment (some db) p = (CreateResult.ok out, some db')) :
    out ∈ list_appointments (some db') none (some out.barber_id) := by
  by_cases h1 : serviceExistsCount db p.service_id = 0
  · simp [create_appointment, h1] at h
  by_cases h2 : barberExistsCount db p.barber_id = 0
  · simp [create_appointment, h1, h2] at h
  by_cases hc : 0 < countAppointmentsAt db p.barber_id p.date p.time
  · simp [create_appointment, h1, h2, hc] at h
  · simp only [create_appointment] at h
    rw [if_neg h1, if_neg h2, if_neg hc] at h
    cases hf : findAppointmentByRaw (create_document_appointment db p).2
        (create_document_appointment db p).1 with
    | none => rw [hf] at h; simp at h
    | some doc =>
      rw [hf] at h
      simp only [Prod.mk.injEq, CreateResult.ok.injEq, Option.some.injEq] at h
      obtain ⟨hout, hdb'⟩ := h
      have hdocmem : doc ∈ db'.appointment := by
        rw [← hdb']
        unfold findAppointmentByRaw findAppointmentById at hf
        split at hf
        · exact List.mem_of_find?_eq_some hf
        · exact List.mem_of_find?_eq_some hf
      subst hout
      unfold list_appointments
      apply List.mem_map_of_mem
      refine List.mem_filter.2 ⟨hdocmem, ?_⟩
      simp only [appointmentQueryPred, serialize_doc_appointment]
      by_cases hbe : doc.barber_id == ""
      · simp [hbe]
      · simp [hbe]

/-- The store after `exPay6` is accepted against `exDb1`. -/
def exDb8' : DB :=
  { service := exDb1.service, barber := exDb1.barber,
    appointment := [insertedDoc exDb1 exPay6], counter := 1 }

/-- C8 witness: the round-trip at a concrete store and candidate. -/
theorem created_appointment_listed_witness :
    ({ id := genId 0, customer_name := "Noor", customer_phone := "555-0106",
       customer_email := none, service_id := "s1", barber_id := "b1",
       date := "2024-06-02", time := "09:00" } : AppointmentOut) ∈
      list_appointments (some exDb8') none (some "b1") :=
  created_appointment_listed exDb1 exDb8' exPay6
    { id := genId 0, customer_name := "Noor", customer_phone := "555-0106",
      customer_email := none, service_id := "s1", barber_id := "b1",
      date := "2024-06-02", time := "09:00" }
    (by decide)
